import Mathlib

/-!
Shallow embedding of the `newq` backend (src/index.js and the near-duplicate
server entry src/unnamed/part_000): an Express + Mongoose API with three
collections (registrations, blog posts, events), disk-backed image uploads via
multer, and a Mailchimp subscription proxy.

Modelling choices:
* Each Mongo collection is a `List` of records; `_id` is a `Nat`.
* The uploads directory is a list of paths present on disk (`FS`); multer's
  middleware writes the uploaded file to disk before the handler body runs.
* `fs.existsSync` is list membership; `fs.unlinkSync` removes the path and
  raises ENOENT (modelled as `Except.error`) when the path is absent.
* JavaScript falsy-`||` merging (`title || blog.title`) is `jsOr` over
  `Option String`, where `none` is an absent field and `""` is falsy.
* HTTP outcomes are status codes (`Nat`) paired with the resulting stores.
-/

namespace Newq

/-- The uploads namespace on disk: the list of paths that currently exist. -/
abbrev FS := List String

/-- `fs.existsSync(p)`. -/
def existsSync (fs : FS) (p : String) : Bool := fs.contains p

/-- `fs.unlinkSync(p)`: removes `p`; raises ENOENT when `p` is not on disk. -/
def unlinkSync (fs : FS) (p : String) : Except String FS :=
  if existsSync fs p then .ok (fs.filter (fun q => q != p)) else .error "ENOENT"

/-- The guarded removal pattern used by every delete/replace site in the
source: `if (img && fs.existsSync(img)) fs.unlinkSync(img)`
(blog delete at src/index.js:159-161, event delete at src/index.js:281-283,
blog update at src/index.js:184-186 and src/unnamed/part_000:247-249). -/
def removeImageIfPresent (fs : FS) (img : String) : Except String FS :=
  if img != "" && existsSync fs img then unlinkSync fs img else .ok fs

/-- JS `newVal || oldVal` for request-body text fields: an absent (`none`) or
empty-string field is falsy and keeps the old value. -/
def jsOr (new? : Option String) (old : String) : String :=
  match new? with
  | none => old
  | some s => if s = "" then old else s

/-- Registration record (`RegSchema`, src/index.js:41-48). -/
structure Reg where
  id : Nat
  name : String
  email : String
  location : String
  church : String
  phone : String
  check : Bool
deriving Repr, DecidableEq

/-- Blog record (`blogSchema`, src/index.js:94-98). -/
structure Blog where
  id : Nat
  title : String
  content : String
  image : String
deriving Repr, DecidableEq

/-- Event record (`eventSchema`, src/index.js:242-247); `date` is a
millisecond timestamp. -/
structure Event where
  id : Nat
  title : String
  date : Int
  time : String
  image : String
deriving Repr, DecidableEq

/-- `Blog.findById(id)` over the collection. -/
def findBlog (store : List Blog) (id : Nat) : Option Blog :=
  store.find? (fun b => b.id == id)

/-- `Event.findById(id)` over the collection. -/
def findEvent (store : List Event) (id : Nat) : Option Event :=
  store.find? (fun e => e.id == id)

/-- `User.findById`-style lookup for registrations. -/
def findReg (store : List Reg) (id : Nat) : Option Reg :=
  store.find? (fun r => r.id == id)

/-- The per-record effect of `findByIdAndUpdate(id, {check: true})`. -/
def setCheck (id : Nat) (s : Reg) : Reg :=
  if s.id == id then { s with check := true } else s

/-- PATCH /api/register/:id (src/index.js:74-91): `findByIdAndUpdate(id,
{check: true}, {new: true})`; 404 when no record matches.  The request body
is received but never read by the handler.  Returns the HTTP status, the
resulting collection, and the record sent back (the updated one). -/
def checkIn (store : List Reg) (id : Nat) (body : List (String × String)) :
    Nat × List Reg × Option Reg :=
  match store.find? (fun r => r.id == id) with
  | none => (404, store, none)
  | some r => (200, store.map (setCheck id), some { r with check := true })

/-- POST /api/blogs (src/index.js:115-126): multer stores the uploaded file
(if any) on disk, the handler sets `image` to the stored path or `''`, and
saves the new record.  Returns status, collection, disk state, and the
created record. -/
def createBlog (store : List Blog) (fs : FS) (newId : Nat)
    (title content : String) (file? : Option String) :
    Nat × List Blog × FS × Blog :=
  let fs1 := match file? with | some p => p :: fs | none => fs
  let image := match file? with | some p => p | none => ""
  let b : Blog := ⟨newId, title, content, image⟩
  (201, store ++ [b], fs1, b)

/-- POST /api/events (src/index.js:252-263), same shape as blog creation. -/
def createEvent (store : List Event) (fs : FS) (newId : Nat)
    (title : String) (date : Int) (time : String) (file? : Option String) :
    Nat × List Event × FS × Event :=
  let fs1 := match file? with | some p => p :: fs | none => fs
  let image := match file? with | some p => p | none => ""
  let e : Event := ⟨newId, title, date, time, image⟩
  (201, store ++ [e], fs1, e)

/-- DELETE /api/blogs/:id (src/index.js:154-170): find the record, remove its
image from disk under the existsSync guard, delete the record, answer 204;
404 when absent; the surrounding try/catch maps a raised error to 500. -/
def deleteBlog (store : List Blog) (fs : FS) (id : Nat) :
    Nat × List Blog × FS :=
  match findBlog store id with
  | none => (404, store, fs)
  | some blog =>
      match removeImageIfPresent fs blog.image with
      | .error _ => (500, store, fs)
      | .ok fs1 => (204, store.filter (fun b => !(b.id == id)), fs1)

/-- DELETE /api/events/:id (src/index.js:276-292), same shape. -/
def deleteEvent (store : List Event) (fs : FS) (id : Nat) :
    Nat × List Event × FS :=
  match findEvent store id with
  | none => (404, store, fs)
  | some ev =>
      match removeImageIfPresent fs ev.image with
      | .error _ => (500, store, fs)
      | .ok fs1 => (204, store.filter (fun e => !(e.id == id)), fs1)

/-- PUT /api/blogs/:id (src/index.js:173-199): multer first writes the
uploaded file (if any) to disk; the handler looks the record up (404 when
absent); when a file was uploaded it removes the old image under the
existsSync guard and points `image` at the new path; `title`/`content` are
merged with JS `||`; the record is saved; try/catch maps a raised error
to 500. -/
def putBlog (store : List Blog) (fs : FS) (id : Nat)
    (title? content? : Option String) (file? : Option String) :
    Nat × List Blog × FS :=
  let fs0 := match file? with | some p => p :: fs | none => fs
  match findBlog store id with
  | none => (404, store, fs0)
  | some blog =>
      match file? with
      | some p =>
          match removeImageIfPresent fs0 blog.image with
          | .error _ => (500, store, fs0)
          | .ok fs1 =>
              let blog1 : Blog :=
                { blog with
                    image := p,
                    title := jsOr title? blog.title,
                    content := jsOr content? blog.content }
              (200, store.map (fun b => if b.id == id then blog1 else b), fs1)
      | none =>
          let blog1 : Blog :=
            { blog with
                title := jsOr title? blog.title,
                content := jsOr content? blog.content }
          (200, store.map (fun b => if b.id == id then blog1 else b), fs0)

/-- The ordering `.sort({date: 1})` sorts by: ascending date. -/
def dateLe (a b : Event) : Prop := a.date ≤ b.date

instance : DecidableRel dateLe :=
  fun a b => inferInstanceAs (Decidable (a.date ≤ b.date))

instance : IsTotal Event dateLe := ⟨fun a b => Int.le_total a.date b.date⟩

instance : IsTrans Event dateLe := ⟨fun _ _ _ h₁ h₂ => le_trans h₁ h₂⟩

/-- GET /api/events (src/index.js:266-273):
`Event.find({date: {$gte: new Date()}}).sort({date: 1})`. -/
def listEvents (store : List Event) (now : Int) : List Event :=
  (store.filter (fun e => decide (now ≤ e.date))).insertionSort dateLe

/-- The Mailchimp API's raw outcome for one request: either a delivered
HTTP response (status and body) or a transport-level failure. -/
inductive ProviderResult where
  | resp (status : Nat) (data : String)
  | transportError (msg : String)
deriving Repr, DecidableEq

/-- What /api/subscribe sends back: HTTP status, message, and the provider
payload when it is surfaced. -/
structure SubscribeOutcome where
  status : Nat
  message : String
  data : Option String
deriving Repr, DecidableEq

/-- `axios.post` as the handlers call it (src/index.js:222-227), with no
`validateStatus` override: the promise resolves with the response only for
a 2xx status; any other delivered status rejects (an AxiosError), as does a
transport failure. -/
def axiosPost (r : ProviderResult) : Except String (Nat × String) :=
  match r with
  | .resp s d =>
      if 200 ≤ s ∧ s < 300 then .ok (s, d)
      else .error "Request failed with non-2xx status"
  | .transportError m => .error m

/-- POST /api/subscribe (src/index.js:202-238): 400 when the email is falsy;
otherwise the handler awaits `axiosPost`.  A resolved response goes through
the `response.status >= 200 && response.status < 300` test (src/index.js:
229-233), whose else branch would surface the provider status and payload;
a rejected promise lands in the catch block as 500.  Because `axiosPost`
only resolves on 2xx, that else branch is unreachable. -/
def subscribe (email : String) (provider : ProviderResult) : SubscribeOutcome :=
  if email = "" then ⟨400, "Email is required", none⟩
  else
    match axiosPost provider with
    | .ok (s, d) =>
        if 200 ≤ s ∧ s < 300 then ⟨200, "Subscription successful", none⟩
        else ⟨s, "Error subscribing to Mailchimp", some d⟩
    | .error _ => ⟨500, "Error subscribing to Mailchimp", none⟩

/-- `listStarts n h`: the character list `n` is an initial segment of `h`. -/
def listStarts : List Char → List Char → Bool
  | [], _ => true
  | _ :: _, [] => false
  | a :: n, b :: h => a == b && listStarts n h

/-- `listHasSub n h`: `n` occurs contiguously somewhere inside `h`. -/
def listHasSub (n : List Char) : List Char → Bool
  | [] => listStarts n []
  | c :: h => listStarts n (c :: h) || listHasSub n h

/-- The Mongo filter `{title: {$regex: q, $options: 'i'}}` for a plain
(non-metacharacter) query: `q` occurs in the title case-insensitively. -/
def titleMatches (title q : String) : Bool :=
  listHasSub (q.data.map Char.toLower) (title.data.map Char.toLower)

/-- GET /api/blogs/search (src/unnamed/part_000:198-208): filter titles by
the case-insensitive query, then `.skip((page-1)*limit).limit(limit)` with
`page` defaulting to 1 and `limit` to 28 when unspecified. -/
def searchBlogs (store : List Blog) (q : String)
    (page? limit? : Option Nat) : List Blog :=
  let page := page?.getD 1
  let limit := limit?.getD 28
  (((store.filter (fun b => titleMatches b.title q)).drop
      ((page - 1) * limit)).take limit)

/-- GET /api/blogs/main (src/unnamed/part_000:186-195): unfiltered listing
with the same `.skip((page-1)*limit).limit(limit)` pagination and defaults;
also returns the total record count. -/
def mainBlogs (store : List Blog) (page? limit? : Option Nat) :
    List Blog × Nat :=
  let page := page?.getD 1
  let limit := limit?.getD 28
  (((store.drop ((page - 1) * limit)).take limit), store.length)

/-! Concrete fixtures used by witnesses and the search example. -/

/-- A registration fixture. -/
def regA : Reg := ⟨1, "Ada", "ada@x.y", "Lagos", "NCC", "080", false⟩

/-- A second registration fixture with a different id. -/
def regB : Reg := ⟨2, "Bob", "bob@x.y", "Abuja", "RCC", "081", false⟩

/-- A blog fixture whose image is on disk. -/
def blogOld : Blog := ⟨7, "t", "c", "uploads/old.png"⟩

/-- Five titles matching "foo" case-insensitively plus one non-matching. -/
def searchFixture : List Blog :=
  [⟨1, "Foo one", "c1", ""⟩, ⟨2, "the FOO two", "c2", ""⟩,
   ⟨3, "fOo three", "c3", ""⟩, ⟨4, "barfoobaz", "c4", ""⟩,
   ⟨5, "Food five", "c5", ""⟩, ⟨6, "bar", "c6", ""⟩]

/-! Helper lemmas. -/

theorem find?_map_of_pred {α : Type} (f : α → α) (p : α → Bool)
    (hp : ∀ x, p (f x) = p x) (l : List α) :
    (l.map f).find? p = (l.find? p).map f := by
  induction l with
  | nil => rfl
  | cons a l ih =>
      simp only [List.map_cons, List.find?, hp a]
      cases h : p a <;> simp [h, ih]

theorem find?_filter_neg {α : Type} (p : α → Bool) (l : List α) :
    (l.filter (fun x => !(p x))).find? p = none := by
  rw [List.find?_eq_none]
  intro x hx
  have hmem := List.mem_filter.mp hx
  simpa using hmem.2

theorem setCheck_id_eq (id : Nat) (x : Reg) : (setCheck id x).id = x.id := by
  unfold setCheck; split <;> rfl

theorem setCheck_idem (id : Nat) (x : Reg) :
    setCheck id (setCheck id x) = setCheck id x := by
  unfold setCheck
  cases h : x.id == id <;> simp [h]

theorem existsSync_true_iff (fs : FS) (p : String) :
    existsSync fs p = true ↔ p ∈ fs := by
  simp [existsSync]

theorem removeImageIfPresent_ok (fs : FS) (img : String) :
    removeImageIfPresent fs img
      = .ok (if img != "" && existsSync fs img
             then fs.filter (fun q => q != img) else fs) := by
  by_cases h : (img != "" && existsSync fs img) = true
  · have h2 : existsSync fs img = true := by
      rw [Bool.and_eq_true] at h
      exact h.2
    simp only [removeImageIfPresent, unlinkSync, h, h2, if_true]
    split <;> rfl
  · rw [Bool.not_eq_true] at h
    simp [removeImageIfPresent, h]

theorem findBlog_update (store : List Blog) (id : Nat) (blog blog1 : Blog)
    (hb : findBlog store id = some blog) (h1 : blog1.id = blog.id) :
    findBlog (store.map (fun b => if b.id == id then blog1 else b)) id
      = some blog1 := by
  have hb' : store.find? (fun b => b.id == id) = some blog := hb
  have hid : (blog.id == id) = true := by simpa using List.find?_some hb'
  have hp : ∀ x : Blog,
      ((if x.id == id then blog1 else x).id == id) = (x.id == id) := by
    intro x
    cases hx : (x.id == id) <;> simp [hx, h1, hid]
  show (store.map _).find? (fun b => b.id == id) = some blog1
  rw [find?_map_of_pred _ _ hp store, hb']
  show some (if (blog.id == id) = true then blog1 else blog) = some blog1
  rw [if_pos hid]

theorem putBlog_file_eq (store : List Blog) (fs : FS) (id : Nat)
    (t? c? : Option String) (p : String) (blog : Blog)
    (hb : findBlog store id = some blog) :
    putBlog store fs id t? c? (some p)
      = (200,
         store.map (fun b => if b.id == id
             then { blog with
                      image := p,
                      title := jsOr t? blog.title,
                      content := jsOr c? blog.content }
             else b),
         if blog.image != "" && existsSync (p :: fs) blog.image
           then (p :: fs).filter (fun q => q != blog.image) else p :: fs) := by
  simp only [putBlog, hb, removeImageIfPresent_ok]

theorem putBlog_nofile_eq (store : List Blog) (fs : FS) (id : Nat)
    (t? c? : Option String) (blog : Blog)
    (hb : findBlog store id = some blog) :
    putBlog store fs id t? c? none
      = (200,
         store.map (fun b => if b.id == id
             then { blog with
                      title := jsOr t? blog.title,
                      content := jsOr c? blog.content }
             else b),
         fs) := by
  simp only [putBlog, hb]

theorem checkIn_found (store : List Reg) (id : Nat)
    (body : List (String × String)) (r : Reg)
    (hr : store.find? (fun s => s.id == id) = some r) :
    checkIn store id body
      = (200, store.map (setCheck id), some { r with check := true }) := by
  simp [checkIn, hr]

/-! Claim theorems. -/

/-- C5: check-in on an existing registration id sets the check flag true and
returns 200 with the updated record; a second check-in on the same id
returns 200 with the same record and leaves the store equal to the result
of the first check-in. -/
theorem checkIn_idempotent (store : List Reg) (id : Nat)
    (b₁ b₂ : List (String × String)) (r : Reg)
    (hr : store.find? (fun s => s.id == id) = some r) :
    ∃ store₁,
      checkIn store id b₁ = (200, store₁, some { r with check := true })
      ∧ ({ r with check := true } : Reg).check = true
      ∧ checkIn store₁ id b₂ = (200, store₁, some { r with check := true }) := by
  refine ⟨store.map (setCheck id), checkIn_found store id b₁ r hr, rfl, ?_⟩
  have hpred : ∀ x : Reg, ((setCheck id x).id == id) = (x.id == id) := by
    intro x; rw [setCheck_id_eq]
  have hrid : (r.id == id) = true := by
    have := List.find?_some hr
    simpa using this
  have hfind : (store.map (setCheck id)).find? (fun s => s.id == id)
      = some { r with check := true } := by
    rw [find?_map_of_pred (setCheck id) (fun s => s.id == id) hpred store, hr]
    simp [setCheck, hrid]
  rw [checkIn_found (store.map (setCheck id)) id b₂ _ hfind]
  rw [List.map_map]
  rw [show store.map (setCheck id ∘ setCheck id) = store.map (setCheck id) from
    List.map_congr_left (fun x _ => setCheck_idem id x)]

/-- Witness for C5 at a concrete store. -/
theorem checkIn_idempotent_witness :
    ∃ store₁,
      checkIn [regA, regB] 1 [] = (200, store₁, some { regA with check := true })
      ∧ ({ regA with check := true } : Reg).check = true
      ∧ checkIn store₁ 1 [] = (200, store₁, some { regA with check := true }) :=
  checkIn_idempotent [regA, regB] 1 [] [] regA rfl

/-- C6: check-in on an id matching no registration returns 404 and leaves
the store unchanged (no record created, none modified). -/
theorem checkIn_not_found (store : List Reg) (id : Nat)
    (body : List (String × String))
    (h : store.find? (fun s => s.id == id) = none) :
    checkIn store id body = (404, store, none) := by
  simp [checkIn, h]

/-- Witness for C6: id 3 matches neither fixture record. -/
theorem checkIn_not_found_witness :
    checkIn [regA, regB] 3 [] = (404, [regA, regB], none) :=
  checkIn_not_found [regA, regB] 3 [] rfl

/-- C10: check-in on an existing id ignores the request body (any two bodies
give the same outcome) and modifies only the check field: the store keeps
its length, position i holds `setCheck id s` whose id, name, email,
location, church and phone equal those of the record s previously at i,
and records whose id differs from the target are unchanged. -/
theorem checkIn_frame (store : List Reg) (id : Nat)
    (b₁ b₂ : List (String × String)) (r : Reg)
    (hr : store.find? (fun s => s.id == id) = some r) :
    checkIn store id b₁ = checkIn store id b₂
    ∧ ((checkIn store id b₁).2.1).length = store.length
    ∧ ∀ i s, store.get? i = some s →
        ((checkIn store id b₁).2.1).get? i = some (setCheck id s)
        ∧ (setCheck id s).id = s.id
        ∧ (setCheck id s).name = s.name
        ∧ (setCheck id s).email = s.email
        ∧ (setCheck id s).location = s.location
        ∧ (setCheck id s).church = s.church
        ∧ (setCheck id s).phone = s.phone
        ∧ (s.id ≠ id → setCheck id s = s) := by
  rw [checkIn_found store id b₁ r hr, checkIn_found store id b₂ r hr]
  refine ⟨rfl, List.length_map store (setCheck id), ?_⟩
  intro i s hs
  refine ⟨?_, setCheck_id_eq id s, ?_, ?_, ?_, ?_, ?_, ?_⟩
  · rw [List.get?_map, hs]; rfl
  all_goals unfold setCheck
  · split <;> rfl
  · split <;> rfl
  · split <;> rfl
  · split <;> rfl
  · split <;> rfl
  · intro hne
    have : (s.id == id) = false := by simpa using hne
    simp [this]

/-- Witness for C10 at a concrete store and two different bodies. -/
theorem checkIn_frame_witness :
    checkIn [regA, regB] 1 [("name", "hack")] = checkIn [regA, regB] 1 []
    ∧ ((checkIn [regA, regB] 1 [("name", "hack")]).2.1).length
        = ([regA, regB] : List Reg).length
    ∧ ∀ i s, ([regA, regB] : List Reg).get? i = some s →
        ((checkIn [regA, regB] 1 [("name", "hack")]).2.1).get? i
          = some (setCheck 1 s)
        ∧ (setCheck 1 s).id = s.id
        ∧ (setCheck 1 s).name = s.name
        ∧ (setCheck 1 s).email = s.email
        ∧ (setCheck 1 s).location = s.location
        ∧ (setCheck 1 s).church = s.church
        ∧ (setCheck 1 s).phone = s.phone
        ∧ (s.id ≠ 1 → setCheck 1 s = s) :=
  checkIn_frame [regA, regB] 1 [("name", "hack")] [] regA rfl

/-- C7: deleting a path that is not on disk, through the existsSync-guarded
unlink pattern every delete/replace site uses, raises no error and leaves
the filesystem unchanged. -/
theorem removeImageIfPresent_noop (fs : FS) (p : String)
    (h : existsSync fs p = false) :
    removeImageIfPresent fs p = .ok fs := by
  simp [removeImageIfPresent, h]

/-- Witness for C7: the guarded delete of an absent path succeeds as a
no-op. -/
theorem removeImageIfPresent_noop_witness :
    removeImageIfPresent ["uploads/a.png"] "uploads/b.png"
      = .ok ["uploads/a.png"] :=
  removeImageIfPresent_noop ["uploads/a.png"] "uploads/b.png" rfl

/-- C2: evaluating the subscribe handler at a non-empty email and a
provider 404 response with body "missing": axios's default validateStatus
rejects the non-2xx response, the catch block answers 500 with a generic
message and no provider payload, and neither the provider's 404 status nor
its payload is surfaced — contrary to the claim (a provider 2xx still maps
to a local 200). -/
theorem subscribe_404_gives_500 :
    subscribe "ada@x.y" (.resp 404 "missing")
      = ⟨500, "Error subscribing to Mailchimp", none⟩
    ∧ (subscribe "ada@x.y" (.resp 404 "missing")).status ≠ 404
    ∧ (subscribe "ada@x.y" (.resp 404 "missing")).data = none
    ∧ subscribe "ada@x.y" (.resp 200 "ok")
      = ⟨200, "Subscription successful", none⟩ := by
  refine ⟨rfl, by decide, rfl, rfl⟩

/-- C4: the event listing contains exactly the stored events whose date is
at or after now (it is a permutation of that filtering, so membership is
exactly date ≥ now) and is sorted ascending by date. -/
theorem listEvents_spec (store : List Event) (now : Int) :
    (∀ e, e ∈ listEvents store now ↔ e ∈ store ∧ now ≤ e.date)
    ∧ List.Perm (listEvents store now)
        (store.filter (fun e => decide (now ≤ e.date)))
    ∧ (listEvents store now).Sorted dateLe := by
  refine ⟨?_, List.perm_insertionSort dateLe _, List.sorted_insertionSort dateLe _⟩
  intro e
  rw [listEvents, List.mem_insertionSort]
  simp [List.mem_filter]

/-- C8: blog search filters titles by case-insensitive containment of the
query, skips (page-1)*limit records and returns at most limit of them, with
page defaulting to 1 and limit to 28; every returned post is a stored post
whose title matches; on the six-post fixture (five matching "foo" in mixed
case, one not), limit=2 page=2 returns the third and fourth matching
posts. -/
theorem searchBlogs_spec (store : List Blog) (q : String) (page limit : Nat) :
    searchBlogs store q (some page) (some limit)
      = ((store.filter (fun b => titleMatches b.title q)).drop
          ((page - 1) * limit)).take limit
    ∧ searchBlogs store q none none
      = (store.filter (fun b => titleMatches b.title q)).take 28
    ∧ (∀ b ∈ searchBlogs store q (some page) (some limit),
        b ∈ store ∧ titleMatches b.title q = true)
    ∧ searchBlogs searchFixture "foo" (some 2) (some 2)
      = [⟨3, "fOo three", "c3", ""⟩, ⟨4, "barfoobaz", "c4", ""⟩] := by
  refine ⟨rfl, by simp [searchBlogs], ?_, by rfl⟩
  intro b hb
  have h1 : b ∈ (store.filter (fun b => titleMatches b.title q)).drop
      ((page - 1) * limit) := List.mem_of_mem_take hb
  have h2 : b ∈ store.filter (fun b => titleMatches b.title q) :=
    List.mem_of_mem_drop h1
  exact List.mem_filter.mp h2

/-- C1: updating an existing blog id with a new attached file answers 200,
points the record's image at the newly stored path, deletes exactly the
previously referenced file from disk (nothing else changes besides the
newly stored file); with no attached file it answers 200 with the disk and
the image reference untouched; in both cases title and content merge by
JS falsiness: a supplied non-empty value replaces, an omitted or empty one
keeps the old value.  Hypotheses: the record exists, its non-empty image is
on disk (the spec's invariant), and the fresh multer path differs from the
old image path. -/
theorem putBlog_spec (store : List Blog) (fs : FS) (id : Nat)
    (t? c? : Option String) (p : String) (blog : Blog)
    (hb : findBlog store id = some blog)
    (hinv : blog.image ≠ "" → blog.image ∈ fs)
    (hpold : p ≠ blog.image) :
    ((putBlog store fs id t? c? (some p)).1 = 200
      ∧ findBlog (putBlog store fs id t? c? (some p)).2.1 id
          = some { blog with
                     image := p,
                     title := jsOr t? blog.title,
                     content := jsOr c? blog.content }
      ∧ p ∈ (putBlog store fs id t? c? (some p)).2.2
      ∧ (blog.image ≠ "" →
          blog.image ∉ (putBlog store fs id t? c? (some p)).2.2)
      ∧ (∀ q, q ≠ p → q ≠ blog.image →
          (q ∈ (putBlog store fs id t? c? (some p)).2.2 ↔ q ∈ fs)))
    ∧ ((putBlog store fs id t? c? none).1 = 200
      ∧ (putBlog store fs id t? c? none).2.2 = fs
      ∧ findBlog (putBlog store fs id t? c? none).2.1 id
          = some { blog with
                     title := jsOr t? blog.title,
                     content := jsOr c? blog.content })
    ∧ (jsOr none blog.title = blog.title
      ∧ jsOr (some "") blog.title = blog.title
      ∧ ∀ s, s ≠ "" → jsOr (some s) blog.title = s) := by
  have hfile := putBlog_file_eq store fs id t? c? p blog hb
  have hnof := putBlog_nofile_eq store fs id t? c? blog hb
  have hfs : (putBlog store fs id t? c? (some p)).2.2
      = if blog.image != "" && existsSync (p :: fs) blog.image
        then (p :: fs).filter (fun q => q != blog.image) else p :: fs := by
    rw [hfile]
  refine ⟨⟨by rw [hfile], ?_, ?_, ?_, ?_⟩, ⟨by rw [hnof], by rw [hnof], ?_⟩,
    rfl, by simp [jsOr], fun s hs => by simp [jsOr, hs]⟩
  · rw [hfile]
    exact findBlog_update store id blog _ hb rfl
  · rw [hfs]
    by_cases himg : blog.image = ""
    · simp [himg]
    · have hmem : blog.image ∈ p :: fs := List.mem_cons_of_mem _ (hinv himg)
      have hex : existsSync (p :: fs) blog.image = true :=
        (existsSync_true_iff _ _).mpr hmem
      have hbne : (blog.image != "") = true := by simpa using himg
      rw [hbne, hex]
      simp [hpold]
  · intro himg
    rw [hfs]
    have hmem : blog.image ∈ p :: fs := List.mem_cons_of_mem _ (hinv himg)
    have hex : existsSync (p :: fs) blog.image = true :=
      (existsSync_true_iff _ _).mpr hmem
    have hbne : (blog.image != "") = true := by simpa using himg
    rw [hbne, hex]
    simp
  · intro q hqp hqi
    rw [hfs]
    by_cases himg : blog.image = ""
    · simp [himg, List.mem_cons, hqp]
    · have hmem : blog.image ∈ p :: fs := List.mem_cons_of_mem _ (hinv himg)
      have hex : existsSync (p :: fs) blog.image = true :=
        (existsSync_true_iff _ _).mpr hmem
      have hbne : (blog.image != "") = true := by simpa using himg
      rw [hbne, hex]
      simp [List.mem_cons, hqp, hqi]
  · rw [hnof]
    exact findBlog_update store id blog _ hb rfl

/-- Witness for C1: replacing the only blog's image stores the new path,
removes the old file from disk, and merges title (supplied) while keeping
content (supplied empty). -/
theorem putBlog_spec_witness :
    findBlog (putBlog [blogOld] ["uploads/old.png"] 7 (some "newT") (some "")
        (some "uploads/new.png")).2.1 7
      = some { blogOld with
                 image := "uploads/new.png",
                 title := jsOr (some "newT") blogOld.title,
                 content := jsOr (some "") blogOld.content }
    ∧ "uploads/old.png" ∉ (putBlog [blogOld] ["uploads/old.png"] 7
        (some "newT") (some "") (some "uploads/new.png")).2.2
    ∧ "uploads/new.png" ∈ (putBlog [blogOld] ["uploads/old.png"] 7
        (some "newT") (some "") (some "uploads/new.png")).2.2 := by
  have h := putBlog_spec [blogOld] ["uploads/old.png"] 7 (some "newT")
    (some "") "uploads/new.png" blogOld rfl (fun _ => by simp [blogOld])
    (by decide)
  exact ⟨h.1.2.1, h.1.2.2.2.1 (by decide), h.1.2.2.1⟩

/-- C3: creating a blog with an attached image (201, image = stored path)
and then deleting it answers 204, after which the record is no longer
found and the stored file no longer exists on disk.  Hypotheses: the new id
is fresh and the stored path is non-empty. -/
theorem blog_create_then_delete (store : List Blog) (fs : FS) (newId : Nat)
    (t c p : String) (hfresh : ∀ b ∈ store, b.id ≠ newId) (hp : p ≠ "") :
    (createBlog store fs newId t c (some p)).1 = 201
    ∧ (createBlog store fs newId t c (some p)).2.2.2.image = p
    ∧ (deleteBlog (createBlog store fs newId t c (some p)).2.1
        (createBlog store fs newId t c (some p)).2.2.1 newId).1 = 204
    ∧ findBlog (deleteBlog (createBlog store fs newId t c (some p)).2.1
        (createBlog store fs newId t c (some p)).2.2.1 newId).2.1 newId
      = none
    ∧ existsSync (deleteBlog (createBlog store fs newId t c (some p)).2.1
        (createBlog store fs newId t c (some p)).2.2.1 newId).2.2 p
      = false := by
  have hcreate : createBlog store fs newId t c (some p)
      = (201, store ++ [⟨newId, t, c, p⟩], p :: fs, ⟨newId, t, c, p⟩) := rfl
  have hfind : findBlog (store ++ [(⟨newId, t, c, p⟩ : Blog)]) newId
      = some (⟨newId, t, c, p⟩ : Blog) := by
    unfold findBlog
    rw [List.find?_append]
    have h1 : store.find? (fun b => b.id == newId) = none := by
      rw [List.find?_eq_none]
      intro x hx
      simpa using hfresh x hx
    simp [h1]
  have hex : existsSync (p :: fs) p = true := by simp [existsSync]
  have hbne : (p != "") = true := by simpa using hp
  have hdel : deleteBlog (store ++ [(⟨newId, t, c, p⟩ : Blog)]) (p :: fs) newId
      = (204, (store ++ [(⟨newId, t, c, p⟩ : Blog)]).filter
          (fun b => !(b.id == newId)),
         (p :: fs).filter (fun q => q != p)) := by
    simp [deleteBlog, hfind, removeImageIfPresent, unlinkSync, hex, hbne]
  rw [hcreate]
  refine ⟨rfl, rfl, ?_, ?_, ?_⟩
  · rw [hdel]
  · rw [hdel]
    exact find?_filter_neg (fun b : Blog => b.id == newId) _
  · rw [hdel]
    simp [existsSync]

/-- Witness for C3: a concrete create-then-delete round trip. -/
theorem blog_create_then_delete_witness :
    (createBlog [] [] 5 "hello" "world" (some "uploads/img.png")).1 = 201
    ∧ findBlog (deleteBlog (createBlog [] [] 5 "hello" "world"
        (some "uploads/img.png")).2.1
        (createBlog [] [] 5 "hello" "world" (some "uploads/img.png")).2.2.1
        5).2.1 5 = none
    ∧ existsSync (deleteBlog (createBlog [] [] 5 "hello" "world"
        (some "uploads/img.png")).2.1
        (createBlog [] [] 5 "hello" "world" (some "uploads/img.png")).2.2.1
        5).2.2 "uploads/img.png" = false := by
  have h := blog_create_then_delete [] [] 5 "hello" "world" "uploads/img.png"
    (fun b hb => absurd hb (List.not_mem_nil b)) (by decide)
  exact ⟨h.1, h.2.2.2.1, h.2.2.2.2⟩

/-- C9: a blog or event created without an attached file stores the empty
string as its image (and writes nothing to disk), and deleting a blog or an
event whose image is the empty string removes only the record: both
deleteBlog and deleteEvent return the filesystem unchanged. -/
theorem create_noFile_and_delete (bstore : List Blog) (estore : List Event)
    (fs : FS) (newId : Nat) (t c : String) (d : Int) (tm : String)
    (dstore : List Blog) (did : Nat) (blog : Blog)
    (destore : List Event) (deid : Nat) (ev : Event)
    (hb : findBlog dstore did = some blog) (himg : blog.image = "")
    (he : findEvent destore deid = some ev) (heimg : ev.image = "") :
    (createBlog bstore fs newId t c none).2.2.2.image = ""
    ∧ (createBlog bstore fs newId t c none).2.2.1 = fs
    ∧ (createEvent estore fs newId t d tm none).2.2.2.image = ""
    ∧ (createEvent estore fs newId t d tm none).2.2.1 = fs
    ∧ deleteBlog dstore fs did
      = (204, dstore.filter (fun b => !(b.id == did)), fs)
    ∧ deleteEvent destore fs deid
      = (204, destore.filter (fun e => !(e.id == deid)), fs) := by
  refine ⟨rfl, rfl, rfl, rfl, ?_, ?_⟩
  · simp [deleteBlog, hb, himg, removeImageIfPresent]
  · simp [deleteEvent, he, heimg, removeImageIfPresent]

/-- Witness for C9: creating without a file yields image `""`; deleting the
image-less blog and the image-less event leaves the disk exactly as it
was. -/
theorem create_noFile_and_delete_witness :
    (createBlog [] ["uploads/x.png"] 9 "a" "b" none).2.2.2.image = ""
    ∧ deleteBlog [⟨9, "a", "b", ""⟩] ["uploads/x.png"] 9
      = (204, ([⟨9, "a", "b", ""⟩] : List Blog).filter (fun b => !(b.id == 9)),
         ["uploads/x.png"])
    ∧ deleteEvent [⟨4, "e", 0, "tm", ""⟩] ["uploads/x.png"] 4
      = (204, ([⟨4, "e", 0, "tm", ""⟩] : List Event).filter
          (fun e => !(e.id == 4)),
         ["uploads/x.png"]) := by
  have h := create_noFile_and_delete [] [] ["uploads/x.png"] 9 "a" "b" 0 "tm"
    [⟨9, "a", "b", ""⟩] 9 ⟨9, "a", "b", ""⟩
    [⟨4, "e", 0, "tm", ""⟩] 4 ⟨4, "e", 0, "tm", ""⟩ rfl rfl rfl rfl
  exact ⟨h.1, h.2.2.2.2.1, h.2.2.2.2.2⟩

end Newq
